import Mathlib

/-!
# Table Recovery Parser — shallow embedding

This file embeds the table-reconstruction logic of the function
import_state_info from miniprojects/html_scraping/emergency_room_html_scraping.ipynb.

The function receives, through its parse boundary, the ordered sequence of
colon-split text fragments of a document's span elements (the Python value
textlist, a numpy object array of Python lists of strings).  We model that
sequence as a Lean value of type List (List String).  Numpy object arrays of
lists are modelled as Lean lists; fancy indexing by np.where indices is
order-preserving selection.  Python exceptions are modelled with Except:
an uncaught ValueError/IndexError in the numeric-parsing loop becomes an
Except.error result of the whole call.
-/

/-- Characters stripped by Python's built-in int() around a numeral
(the ASCII whitespace characters; non-ASCII whitespace is not modelled). -/
def isPySpace (c : Char) : Bool :=
  c = ' ' || c = '\t' || c = '\n' || c = '\r' || c = '\x0b' || c = '\x0c'

/-- Value of a nonempty all-decimal-digit character run, as Python int()
reads the digit part of a base-10 numeral.  Any other run is a ValueError,
modelled as none.  (Underscore digit grouping and non-ASCII digits accepted
by CPython are not modelled.) -/
def decVal? (cs : List Char) : Option Nat :=
  if cs.isEmpty then none
  else if cs.all (fun c => c.isDigit) then
    some (cs.foldl (fun a c => 10 * a + (c.toNat - 48)) 0)
  else none

/-- Model of Python's built-in int() applied to a string given as a character
list: strip surrounding whitespace, allow one optional sign, then require a
nonempty digit run.  none models a ValueError. -/
def pyIntChars? (cs : List Char) : Option Int :=
  match ((cs.dropWhile isPySpace).reverse.dropWhile isPySpace).reverse with
  | '+' :: rest => (decVal? rest).map (fun n => (n : Int))
  | '-' :: rest => (decVal? rest).map (fun n => -(n : Int))
  | other => (decVal? other).map (fun n => (n : Int))

/-- Model of Python's built-in int() on a string. -/
def pyInt? (s : String) : Option Int :=
  pyIntChars? s.data

/-- Model of Python's str.split(sep) with an explicit one-character
separator: split at every occurrence, keeping empty pieces, so that the
result is always nonempty (the empty string splits to one empty piece). -/
def splitOnChar (sep : Char) : List Char → List (List Char)
  | [] => [[]]
  | c :: rest =>
    match splitOnChar sep rest with
    | [] => if c = sep then [[], []] else [[c]]
    | w :: ws => if c = sep then [] :: w :: ws else (c :: w) :: ws

/-- The first whitespace-delimited token used by the fallback numeric parse:
Python's s.split(' ')[0].  split(' ') always returns a nonempty list, so the
indexing never fails. -/
def firstTok (s : String) : List Char :=
  (splitOnChar ' ' s.data).headD []

/-- The separator-position list of the scraper
(notebook line: idx_list = [idx for idx, val in enumerate(textlist)
if (val == ['']) or (val == textlist[-1])]): the indices whose fragment
equals [""] together with the indices whose fragment equals the final
fragment — Python's textlist[-1] compares by value, so every duplicate of
the last fragment is a separator position, and the final index always is. -/
def idx_list (textlist : List (List String)) : List Nat :=
  (List.range textlist.length).filter
    (fun idx => decide (textlist.getD idx [] = [""] ∨
      textlist.getLast? = some (textlist.getD idx [])))

/-- The record-candidate slices
(notebook line: slices_list = [textlist[idx_list[i]:idx_list[i+1]]
for i in range(len(idx_list)-1)]): the half-open slices between successive
separator positions, each including its leading separator fragment. -/
def slices_list (textlist : List (List String)) : List (List (List String)) :=
  ((idx_list textlist).zip (idx_list textlist).tail).map
    (fun ab => (textlist.drop ab.1).take (ab.2 - ab.1))

/-- The retained candidate indices
(notebook line: useable_data_idx = np.where(np.logical_or(len_slices==5,
len_slices==6))[0]): np.where over the slice lengths returns the ascending
indices of the slices of length 5 or 6. -/
def useable_data_idx (textlist : List (List String)) : List Nat :=
  (List.range (slices_list textlist).length).filter
    (fun i => decide (((slices_list textlist).getD i []).length = 5 ∨
      ((slices_list textlist).getD i []).length = 6))

/-- The validated records
(notebook line: pruned_slices_list = slices_list[useable_data_idx]):
numpy fancy indexing of the slices by the retained indices. -/
def pruned_slices_list (textlist : List (List String)) : List (List (List String)) :=
  (useable_data_idx textlist).map (fun i => (slices_list textlist).getD i [])

/-- The fallback numeric parse of the loop body
(notebook line: int(tmp[i][0].split(' ')[0])): first space-token of the
fragment's first element read as an integer minute count; a ValueError
here is uncaught and aborts the call. -/
def fallbackField (s0 : String) : Except String Int :=
  match pyIntChars? (firstTok s0) with
  | some n => Except.ok n
  | none => Except.error "ValueError"

/-- One numeric field of the loop body
(notebook lines: try: xs.append(60*int(tmp[i][0]) + int(tmp[i][1]))
except (IndexError, ValueError): xs.append(int(tmp[i][0].split(' ')[0]))):
the primary hours-colon-minutes parse reads only the fragment's first two
elements; an IndexError or ValueError there falls back to fallbackField;
an empty fragment raises IndexError inside the handler as well, which is
uncaught. -/
def parseField (frag : List String) : Except String Int :=
  match frag.get? 0, frag.get? 1 with
  | some s0, some s1 =>
    match pyInt? s0, pyInt? s1 with
    | some h, some m => Except.ok (60 * h + m)
    | _, _ => fallbackField s0
  | some s0, none => fallbackField s0
  | none, _ => Except.error "IndexError"

/-- One iteration of the extraction loop on a validated record p
(notebook line: tmp = p[:5], then the two parses at positions 1 and 3):
sent-home minutes from fragment 1, admitted minutes from fragment 3; the
first raised exception aborts, so an error in fragment 1 takes precedence. -/
def parseRecord (p : List (List String)) : Except String (Int × Int) :=
  match parseField ((p.take 5).getD 1 []), parseField ((p.take 5).getD 3 []) with
  | Except.ok sh, Except.ok ad => Except.ok (sh, ad)
  | Except.error e, _ => Except.error e
  | _, Except.error e => Except.error e

/-- The extraction loop over all validated records
(notebook lines: for p in pruned_slices_list: ...): records are processed
in document order and the first uncaught exception aborts the whole call. -/
def parseAll : List (List (List String)) → Except String (List (Int × Int))
  | [] => Except.ok []
  | p :: rest =>
    match parseRecord p, parseAll rest with
    | Except.ok r, Except.ok rs => Except.ok (r :: rs)
    | Except.error e, _ => Except.error e
    | _, Except.error e => Except.error e

/-- The numeric relation built by import_state_info from the fragment
sequence: the rows (time_until_sent_home, time_until_admitted) of the
returned DataFrame, in document order, or the uncaught parsing exception. -/
def import_state_info (textlist : List (List String)) :
    Except String (List (Int × Int)) :=
  parseAll (pruned_slices_list textlist)

/-- The hospital-name alignment of the hospital_names=True branch
(notebook lines: hospitals_idx = useable_data_idx - useable_data_idx.min();
df.index = namelist[9:-12][hospitals_idx].flatten(), inside try/except).
useable_data_idx is ascending, so its numpy min() is its first element and
an empty index range raises (modelled none).  namelist[9:-12] drops the
first 9 and last 12 anchor fragments; an out-of-range fancy index raises
IndexError (none); flatten of the selected rows concatenates them, and
assigning an index whose length differs from the row count raises
ValueError (none). -/
def hospital_labels (namelist : List (List String)) (usableIdx : List Nat)
    (nrows : Nat) : Option (List String) :=
  match usableIdx with
  | [] => none
  | m :: _ =>
    if (usableIdx.map (fun i => i - m)).all
        (fun i => decide (i < ((namelist.drop 9).take (namelist.length - 21)).length)) then
      if ((usableIdx.map (fun i => i - m)).map
            (fun i => ((namelist.drop 9).take (namelist.length - 21)).getD i [])).flatten.length
          = nrows then
        some ((usableIdx.map (fun i => i - m)).map
          (fun i => ((namelist.drop 9).take (namelist.length - 21)).getD i [])).flatten
      else none
    else none

/-- import_state_info with hospital_names=True: the numeric relation is
built exactly as in the unlabeled call; the label alignment is attempted
afterwards under a bare except that swallows every exception, so the result
carries some labels on success and none (the DataFrame's default positional
index) on any alignment failure. -/
def import_state_info_names (textlist : List (List String))
    (namelist : List (List String)) :
    Except String ((List (Int × Int)) × Option (List String)) :=
  match import_state_info textlist with
  | Except.error e => Except.error e
  | Except.ok rows =>
    Except.ok (rows, hospital_labels namelist (useable_data_idx textlist) rows.length)

/-- Whether an Except result is a success. -/
def isOkE {α : Type} : Except String α → Bool
  | Except.ok _ => true
  | Except.error _ => false

/-- Whether a fragment has the hours-colon-minutes shape accepted by the
primary parse: at least two elements with the first two reading as
integers. -/
def primary_ok (frag : List String) : Bool :=
  match frag.get? 0, frag.get? 1 with
  | some s0, some s1 => (pyInt? s0).isSome && (pyInt? s1).isSome
  | _, _ => false

/-- Whether a fragment has the bare-minutes shape accepted by the fallback
parse: a first element whose first space-token reads as an integer. -/
def fallback_ok (frag : List String) : Bool :=
  match frag.get? 0 with
  | some s0 => (pyIntChars? (firstTok s0)).isSome
  | none => false

/-- All integer tokens occurring in the fragment sequence are non-negative:
for every element of every fragment, a successful int() reading of the
element, and of its first space-token, is non-negative. -/
def tokensNonNeg (textlist : List (List String)) : Prop :=
  ∀ p ∈ textlist, ∀ s ∈ p,
    0 ≤ (pyInt? s).getD 0 ∧ 0 ≤ (pyIntChars? (firstTok s)).getD 0

/-! ## Helper lemmas -/

/-- Selecting the elements of a list at the ascending indices where a
predicate on the element holds is the same as filtering the list: this is
the np.where-then-fancy-index idiom of the notebook. -/
theorem sel_filter {α : Type} (l : List α) (p : α → Bool) (d : α) :
    ((List.range l.length).filter (fun i => p (l.getD i d))).map (fun i => l.getD i d)
      = l.filter p := by
  induction l with
  | nil => simp
  | cons a t ih =>
    have key : ((((List.range t.length).map Nat.succ).filter
          (fun i => p ((a :: t).getD i d))).map
            (fun i => (a :: t).getD i d)) = t.filter p := by
      rw [List.filter_map, List.map_map]
      have e1 : ((fun i => p ((a :: t).getD i d)) ∘ Nat.succ)
          = fun i => p (t.getD i d) := by
        funext i
        simp
      have e2 : ((fun i => (a :: t).getD i d) ∘ Nat.succ)
          = fun i => t.getD i d := by
        funext i
        simp
      rw [e1, e2, ih]
    rw [List.length_cons, List.range_succ_eq_map, List.filter_cons]
    cases hp : p ((a :: t).getD 0 d) with
    | false =>
      rw [if_neg (by simp [hp])]
      rw [List.filter_cons_of_neg]
      · exact key
      · simpa using hp
    | true =>
      rw [if_pos (by simp [hp])]
      rw [List.filter_cons_of_pos]
      · rw [List.map_cons, List.getD_cons_zero]
        exact congrArg (a :: ·) key
      · simpa using hp

/-- The fancy-indexed validated records are exactly the slices of length 5
or 6, filtered in document order. -/
theorem pruned_eq_filter (textlist : List (List String)) :
    pruned_slices_list textlist
      = (slices_list textlist).filter (fun s => decide (s.length = 5 ∨ s.length = 6)) := by
  unfold pruned_slices_list useable_data_idx
  exact sel_filter (slices_list textlist)
    (fun s => decide (s.length = 5 ∨ s.length = 6)) []

/-- A successful extraction loop yields one row per validated record. -/
theorem parseAll_ok_length (l : List (List (List String)))
    (rows : List (Int × Int)) (h : parseAll l = Except.ok rows) :
    rows.length = l.length := by
  induction l generalizing rows with
  | nil =>
    simp only [parseAll] at h
    cases h
    rfl
  | cons p rest ih =>
    simp only [parseAll] at h
    cases hr : parseRecord p with
    | error e =>
      cases ha : parseAll rest with
      | error f =>
        rw [hr, ha] at h
        cases h
      | ok rs =>
        rw [hr, ha] at h
        cases h
    | ok r =>
      cases ha : parseAll rest with
      | error e =>
        rw [hr, ha] at h
        cases h
      | ok rs =>
        rw [hr, ha] at h
        cases h
        simp [ih rs ha]

/-- A successful extraction loop parses the k-th validated record to the
k-th row. -/
theorem parseAll_ok_getD (l : List (List (List String)))
    (rows : List (Int × Int)) (h : parseAll l = Except.ok rows)
    (k : Nat) (hk : k < l.length) :
    parseRecord (l.getD k []) = Except.ok (rows.getD k (0, 0)) := by
  induction l generalizing rows k with
  | nil => cases hk
  | cons p rest ih =>
    simp only [parseAll] at h
    cases hr : parseRecord p with
    | error e =>
      cases ha : parseAll rest with
      | error f =>
        rw [hr, ha] at h
        cases h
      | ok rs =>
        rw [hr, ha] at h
        cases h
    | ok r =>
      cases ha : parseAll rest with
      | error e =>
        rw [hr, ha] at h
        cases h
      | ok rs =>
        rw [hr, ha] at h
        cases h
        cases k with
        | zero => simpa using hr
        | succ k =>
          simp only [List.getD_cons_succ]
          exact ih rs ha k (by simpa using hk)

/-- If any validated record's parse raises, the whole extraction loop
raises: no partial relation is returned. -/
theorem parseAll_not_ok_of_mem (l : List (List (List String)))
    (p : List (List String)) (hp : p ∈ l)
    (hbad : isOkE (parseRecord p) = false) :
    isOkE (parseAll l) = false := by
  induction l with
  | nil => cases hp
  | cons q rest ih =>
    simp only [parseAll]
    cases hq : parseRecord q with
    | error e => simp [isOkE]
    | ok r =>
      cases hmem : parseAll rest with
      | error e => simp [isOkE]
      | ok rs =>
        rcases List.mem_cons.mp hp with h1 | h2
        · subst h1
          rw [hq] at hbad
          simp [isOkE] at hbad
        · have := ih h2
          rw [hmem] at this
          simp [isOkE] at this

/-- Taking the first five fragments does not change the fragments at
positions below five. -/
theorem getD_take_five {α : Type} (p : List α) (i : Nat) (d : α)
    (hi : i < 5) : (p.take 5).getD i d = p.getD i d := by
  unfold List.getD
  rw [List.get?_take hi]

/-- A successfully parsed record determines both fields: sent-home from
fragment 1, admitted from fragment 3 of the truncated record. -/
theorem parseRecord_ok_inv (p : List (List String)) (r : Int × Int)
    (h : parseRecord p = Except.ok r) :
    parseField ((p.take 5).getD 1 []) = Except.ok r.1 ∧
      parseField ((p.take 5).getD 3 []) = Except.ok r.2 := by
  unfold parseRecord at h
  cases h1 : parseField ((p.take 5).getD 1 []) with
  | error e =>
    rw [h1] at h
    cases h2 : parseField ((p.take 5).getD 3 []) with
    | error f =>
      rw [h2] at h
      cases h
    | ok ad =>
      rw [h2] at h
      cases h
  | ok sh =>
    rw [h1] at h
    cases h2 : parseField ((p.take 5).getD 3 []) with
    | error f =>
      rw [h2] at h
      cases h
    | ok ad =>
      rw [h2] at h
      cases h
      exact ⟨rfl, rfl⟩

/-- The field parse succeeds exactly when the fragment has the primary
hours-colon-minutes shape or the fallback bare-minutes shape. -/
theorem isOkE_parseField (frag : List String) :
    isOkE (parseField frag) = (primary_ok frag || fallback_ok frag) := by
  match frag with
  | [] => rfl
  | [s0] =>
    simp only [parseField, primary_ok, fallback_ok, fallbackField]
    cases hf : pyIntChars? (firstTok s0) <;> simp [hf, isOkE]
  | s0 :: s1 :: rest =>
    simp only [parseField, primary_ok, fallback_ok, fallbackField]
    cases hp0 : pyInt? s0 <;> cases hp1 : pyInt? s1 <;>
      cases hf : pyIntChars? (firstTok s0) <;> simp [hp0, hp1, hf, isOkE]

/-- A fragment outside both accepted numeric shapes makes its field parse
raise (an IndexError for an empty fragment, else a ValueError from the
fallback). -/
theorem parseField_not_ok (frag : List String)
    (h1 : primary_ok frag = false) (h2 : fallback_ok frag = false) :
    isOkE (parseField frag) = false := by
  rw [isOkE_parseField, h1, h2]
  rfl

/-- A raising field parse at position 1 or position 3 makes the whole
record parse raise. -/
theorem parseRecord_not_ok (p : List (List String))
    (h : isOkE (parseField ((p.take 5).getD 1 [])) = false ∨
      isOkE (parseField ((p.take 5).getD 3 [])) = false) :
    isOkE (parseRecord p) = false := by
  unfold parseRecord
  cases h1 : parseField ((p.take 5).getD 1 []) with
  | error e => simp [isOkE]
  | ok sh =>
    cases h2 : parseField ((p.take 5).getD 3 []) with
    | error e => simp [isOkE]
    | ok ad =>
      rw [h1, h2] at h
      rcases h with hb | hb <;> simp [isOkE] at hb

/-- Every fragment of a record-candidate slice is a fragment of the
document. -/
theorem mem_of_mem_slices (textlist : List (List String))
    (s : List (List String)) (hs : s ∈ slices_list textlist)
    (f : List String) (hf : f ∈ s) : f ∈ textlist := by
  unfold slices_list at hs
  rcases List.mem_map.mp hs with ⟨ab, _, hab⟩
  subst hab
  exact List.mem_of_mem_drop (List.mem_of_mem_take hf)

/-- Every validated record is one of the record-candidate slices. -/
theorem pruned_mem_slices (textlist : List (List String))
    (p : List (List String)) (hp : p ∈ pruned_slices_list textlist) :
    p ∈ slices_list textlist := by
  rw [pruned_eq_filter] at hp
  exact List.mem_of_mem_filter hp

/-- Every validated record has length 5 or 6. -/
theorem pruned_length (textlist : List (List String))
    (p : List (List String)) (hp : p ∈ pruned_slices_list textlist) :
    p.length = 5 ∨ p.length = 6 := by
  rw [pruned_eq_filter] at hp
  have := List.of_mem_filter hp
  simpa using this

/-- Unfolding equation: the field parse of a fragment with at least two
elements. -/
theorem parseField_cons2 (s0 s1 : String) (rest : List String) :
    parseField (s0 :: s1 :: rest) =
      (match pyInt? s0, pyInt? s1 with
       | some h, some m => Except.ok (60 * h + m)
       | _, _ => fallbackField s0) := rfl

/-- Unfolding equation: the field parse of a one-element fragment. -/
theorem parseField_one (s0 : String) : parseField [s0] = fallbackField s0 := rfl

/-- Unfolding equation: the field parse of an empty fragment. -/
theorem parseField_nil : parseField [] = Except.error "IndexError" := rfl

/-- An element at an in-range position is a member of the list. -/
theorem getD_mem {α : Type} (l : List α) (k : Nat) (d : α)
    (h : k < l.length) : l.getD k d ∈ l := by
  rw [List.getD_eq_getElem l d h]
  exact List.getElem_mem h

/-- When both of the first two elements of the fragment read as integers,
the primary parse fires and later elements are never consulted. -/
theorem parseField_primary (s0 s1 : String) (rest : List String) (h m : Int)
    (h0 : pyInt? s0 = some h) (h1 : pyInt? s1 = some m) :
    parseField (s0 :: s1 :: rest) = Except.ok (60 * h + m) := by
  simp [parseField, h0, h1]

/-- When the primary parse fails on a nonempty fragment and the first
space-token of its first element reads as an integer, the fallback parse
fires. -/
theorem parseField_fallback (s0 : String) (rest : List String) (n : Int)
    (hprim : primary_ok (s0 :: rest) = false)
    (hfb : pyIntChars? (firstTok s0) = some n) :
    parseField (s0 :: rest) = Except.ok n := by
  cases rest with
  | nil => simp [parseField_one, fallbackField, hfb]
  | cons s1 r2 =>
    rw [parseField_cons2]
    cases hp0 : pyInt? s0 with
    | none => simp [fallbackField, hfb]
    | some h =>
      cases hp1 : pyInt? s1 with
      | none => simp [fallbackField, hfb]
      | some m =>
        exfalso
        simp only [primary_ok] at hprim
        rw [show (s0 :: s1 :: r2).get? 0 = some s0 from rfl,
          show (s0 :: s1 :: r2).get? 1 = some s1 from rfl] at hprim
        simp [hp0, hp1] at hprim

/-- Record parsing is the pairing of the two field parses. -/
theorem parseRecord_eq (p : List (List String)) (sh ad : Int)
    (h1 : parseField ((p.take 5).getD 1 []) = Except.ok sh)
    (h3 : parseField ((p.take 5).getD 3 []) = Except.ok ad) :
    parseRecord p = Except.ok (sh, ad) := by
  unfold parseRecord
  rw [h1, h3]

/-- If every integer token of the fragment is non-negative, a successful
field parse is non-negative. -/
theorem parseField_nonneg (frag : List String)
    (hs : ∀ s ∈ frag, 0 ≤ (pyInt? s).getD 0 ∧ 0 ≤ (pyIntChars? (firstTok s)).getD 0)
    (v : Int) (hok : parseField frag = Except.ok v) : 0 ≤ v := by
  match frag with
  | [] => cases hok
  | [s0] =>
    rw [parseField_one, fallbackField] at hok
    have hmf : 0 ≤ (pyIntChars? (firstTok s0)).getD 0 := (hs s0 (by simp)).2
    cases hf : pyIntChars? (firstTok s0) with
    | none =>
      rw [hf] at hok
      cases hok
    | some n =>
      rw [hf] at hok
      cases hok
      rw [hf] at hmf
      simpa using hmf
  | s0 :: s1 :: rest =>
    have hm0 : 0 ≤ (pyInt? s0).getD 0 := (hs s0 (by simp)).1
    have hm1 : 0 ≤ (pyInt? s1).getD 0 := (hs s1 (by simp)).1
    have hmf : 0 ≤ (pyIntChars? (firstTok s0)).getD 0 := (hs s0 (by simp)).2
    rw [parseField_cons2] at hok
    cases hp0 : pyInt? s0 with
    | none =>
      rw [hp0] at hok
      rw [fallbackField] at hok
      cases hf : pyIntChars? (firstTok s0) with
      | none =>
        rw [hf] at hok
        cases hok
      | some n =>
        rw [hf] at hok
        cases hok
        rw [hf] at hmf
        simpa using hmf
    | some h =>
      rw [hp0] at hok
      cases hp1 : pyInt? s1 with
      | none =>
        rw [hp1] at hok
        rw [fallbackField] at hok
        cases hf : pyIntChars? (firstTok s0) with
        | none =>
          rw [hf] at hok
          cases hok
        | some n =>
          rw [hf] at hok
          cases hok
          rw [hf] at hmf
          simpa using hmf
      | some m =>
        rw [hp1] at hok
        cases hok
        rw [hp0] at hm0
        rw [hp1] at hm1
        simp at hm0 hm1
        omega

/-! ## Claim theorems -/

/-- Claim C1 as stated is false on the code: the scraper compares each
fragment by value with the last fragment, so on the document below
position 0 (fragment ["x"], equal to the final fragment) is treated as a
separator position although its fragment is not [""] and it is not the
final index; the resulting partition yields a row that the claimed
partition (separators only at [""]-fragments and the final index) would
not produce. -/
theorem c1_counterexample :
    0 ∈ idx_list [["x"], ["2", "30"], ["j"], ["1", "00"], ["k"], [""], ["x"]] ∧
    ([["x"], ["2", "30"], ["j"], ["1", "00"], ["k"], [""], ["x"]] :
      List (List String)).getD 0 [] ≠ [""] ∧
    (0 : Nat) ≠ ([["x"], ["2", "30"], ["j"], ["1", "00"], ["k"], [""], ["x"]] :
      List (List String)).length - 1 ∧
    import_state_info [["x"], ["2", "30"], ["j"], ["1", "00"], ["k"], [""], ["x"]]
      = Except.ok [(150, 60)] := by
  refine ⟨by decide, by decide, by decide, rfl⟩

/-- Claim C1 (amended): the parser takes the separator positions to be
exactly the indices whose fragment equals [""] or equals the final
fragment (so in particular always the final index); it partitions the
sequence into the N-1 consecutive slices between successive separator
positions (for N separator positions), and on success the output relation
has at most N-1 rows, with exactly one row for each slice of length 5 or
6, rows in document order. -/
theorem c1_separators_partition (textlist : List (List String))
    (rows : List (Int × Int)) (i : Nat)
    (h : import_state_info textlist = Except.ok rows) :
    (i ∈ idx_list textlist ↔ (i < textlist.length ∧
      (textlist.getD i [] = [""] ∨ textlist.getLast? = some (textlist.getD i [])))) ∧
    (slices_list textlist).length = (idx_list textlist).length - 1 ∧
    rows.length = ((slices_list textlist).filter
      (fun s => decide (s.length = 5 ∨ s.length = 6))).length ∧
    rows.length ≤ (slices_list textlist).length := by
  refine ⟨?_, ?_, ?_, ?_⟩
  · simp [idx_list, List.mem_filter, List.mem_range]
  · rw [slices_list, List.length_map, List.length_zip, List.length_tail]
    omega
  · rw [parseAll_ok_length _ _ h, pruned_eq_filter]
  · rw [parseAll_ok_length _ _ h, pruned_eq_filter]
    exact List.length_filter_le _ _

/-- Witness for C1 (amended) at a concrete document. -/
theorem c1_witness :
    ((0 : Nat) ∈ idx_list [["x"], ["2", "30"], ["j"], ["1", "00"], ["k"], [""], ["x"]] ↔
      ((0 : Nat) < ([["x"], ["2", "30"], ["j"], ["1", "00"], ["k"], [""], ["x"]] :
          List (List String)).length ∧
        (([["x"], ["2", "30"], ["j"], ["1", "00"], ["k"], [""], ["x"]] :
            List (List String)).getD 0 [] = [""] ∨
          ([["x"], ["2", "30"], ["j"], ["1", "00"], ["k"], [""], ["x"]] :
            List (List String)).getLast? =
            some (([["x"], ["2", "30"], ["j"], ["1", "00"], ["k"], [""], ["x"]] :
              List (List String)).getD 0 [])))) ∧
    (slices_list [["x"], ["2", "30"], ["j"], ["1", "00"], ["k"], [""], ["x"]]).length =
      (idx_list [["x"], ["2", "30"], ["j"], ["1", "00"], ["k"], [""], ["x"]]).length - 1 ∧
    ([((150 : Int), (60 : Int))].length =
      ((slices_list [["x"], ["2", "30"], ["j"], ["1", "00"], ["k"], [""], ["x"]]).filter
        (fun s => decide (s.length = 5 ∨ s.length = 6))).length) ∧
    ([((150 : Int), (60 : Int))].length ≤
      (slices_list [["x"], ["2", "30"], ["j"], ["1", "00"], ["k"], [""], ["x"]]).length) :=
  c1_separators_partition [["x"], ["2", "30"], ["j"], ["1", "00"], ["k"], [""], ["x"]]
    [(150, 60)] 0 rfl

/-- Claim C2: on a successful run, the validated records are exactly the
candidates of length 5 or 6 in document order, each contributing exactly
one row; a candidate of length 4 or 7 is excluded entirely, and the length
test is the only condition that discards a candidate. -/
theorem c2_length_gate (textlist : List (List String))
    (rows : List (Int × Int)) (k : Nat)
    (h : import_state_info textlist = Except.ok rows) :
    pruned_slices_list textlist = (slices_list textlist).filter
      (fun s => decide (s.length = 5 ∨ s.length = 6)) ∧
    rows.length = (pruned_slices_list textlist).length ∧
    (k < rows.length →
      parseRecord ((pruned_slices_list textlist).getD k [])
        = Except.ok (rows.getD k (0, 0))) ∧
    (((slices_list textlist).getD k []).length = 4 ∨
        ((slices_list textlist).getD k []).length = 7 →
      (slices_list textlist).getD k [] ∉ pruned_slices_list textlist) := by
  have hlen := parseAll_ok_length _ _ h
  refine ⟨pruned_eq_filter textlist, hlen, ?_, ?_⟩
  · intro hk
    exact parseAll_ok_getD _ _ h k (by omega)
  · intro h47 hmem
    have := pruned_length textlist _ hmem
    omega

/-- Witness for C2 at a concrete document. -/
theorem c2_witness :
    pruned_slices_list [["x"], ["2", "30"], ["j"], ["1", "00"], ["k"], [""], ["x"]]
      = (slices_list [["x"], ["2", "30"], ["j"], ["1", "00"], ["k"], [""], ["x"]]).filter
        (fun s => decide (s.length = 5 ∨ s.length = 6)) ∧
    ([((150 : Int), (60 : Int))].length =
      (pruned_slices_list [["x"], ["2", "30"], ["j"], ["1", "00"], ["k"], [""], ["x"]]).length) ∧
    ((0 : Nat) < [((150 : Int), (60 : Int))].length →
      parseRecord ((pruned_slices_list
          [["x"], ["2", "30"], ["j"], ["1", "00"], ["k"], [""], ["x"]]).getD 0 [])
        = Except.ok ([((150 : Int), (60 : Int))].getD 0 (0, 0))) ∧
    (((slices_list [["x"], ["2", "30"], ["j"], ["1", "00"], ["k"], [""], ["x"]]).getD 0 []).length = 4 ∨
        ((slices_list [["x"], ["2", "30"], ["j"], ["1", "00"], ["k"], [""], ["x"]]).getD 0 []).length = 7 →
      (slices_list [["x"], ["2", "30"], ["j"], ["1", "00"], ["k"], [""], ["x"]]).getD 0 []
        ∉ pruned_slices_list [["x"], ["2", "30"], ["j"], ["1", "00"], ["k"], [""], ["x"]]) :=
  c2_length_gate [["x"], ["2", "30"], ["j"], ["1", "00"], ["k"], [""], ["x"]]
    [(150, 60)] 0 rfl

/-- Claim C3: for a validated record whose fragment at position 1
(respectively 3) is a two-element split with both parts reading as
integers, the corresponding output field is 60*hours + minutes. -/
theorem c3_primary_parse (p : List (List String)) (a b c d : String)
    (h1 m1 h2 m2 : Int)
    (hlen : p.length = 5 ∨ p.length = 6)
    (hf1 : p.getD 1 [] = [a, b]) (hf3 : p.getD 3 [] = [c, d])
    (ha : pyInt? a = some h1) (hb : pyInt? b = some m1)
    (hc : pyInt? c = some h2) (hd : pyInt? d = some m2) :
    parseRecord p = Except.ok (60 * h1 + m1, 60 * h2 + m2) := by
  apply parseRecord_eq
  · rw [getD_take_five p 1 [] (by omega), hf1]
    exact parseField_primary a b [] h1 m1 ha hb
  · rw [getD_take_five p 3 [] (by omega), hf3]
    exact parseField_primary c d [] h2 m2 hc hd

/-- Witness for C3: a length-5 candidate with fragment 1 equal to
["2","30"] yields time_until_sent_home = 150. -/
theorem c3_witness :
    parseRecord [["A"], ["2", "30"], ["B"], ["1", "00"], ["C"]]
      = Except.ok (150, 60) := by
  have := c3_primary_parse [["A"], ["2", "30"], ["B"], ["1", "00"], ["C"]]
    "2" "30" "1" "00" 2 30 1 0 (Or.inl rfl) rfl rfl rfl rfl rfl rfl
  exact this

/-- Claim C4: for a validated record whose fragment at position 1
(respectively 3) makes the primary hours-colon-minutes parse fail, the
output field is the first space-token of the fragment's first element read
as an integer minute count. -/
theorem c4_fallback_parse (p : List (List String)) (s0 : String)
    (rest : List String) (n sh ad : Int)
    (hlen : p.length = 5 ∨ p.length = 6) :
    ((p.getD 1 [] = s0 :: rest → primary_ok (s0 :: rest) = false →
        pyIntChars? (firstTok s0) = some n →
        parseField (p.getD 1 []) = Except.ok n ∧
          (parseField (p.getD 3 []) = Except.ok ad →
            parseRecord p = Except.ok (n, ad))) ∧
      (p.getD 3 [] = s0 :: rest → primary_ok (s0 :: rest) = false →
        pyIntChars? (firstTok s0) = some n →
        parseField (p.getD 3 []) = Except.ok n ∧
          (parseField (p.getD 1 []) = Except.ok sh →
            parseRecord p = Except.ok (sh, n)))) := by
  have e1 := getD_take_five p 1 ([] : List String) (by omega)
  have e3 := getD_take_five p 3 ([] : List String) (by omega)
  constructor
  · intro hf1 hprim hfb
    have hpf : parseField (p.getD 1 []) = Except.ok n := by
      rw [hf1]
      exact parseField_fallback s0 rest n hprim hfb
    refine ⟨hpf, fun h3 => ?_⟩
    apply parseRecord_eq
    · rw [e1]
      exact hpf
    · rw [e3]
      exact h3
  · intro hf3 hprim hfb
    have hpf : parseField (p.getD 3 []) = Except.ok n := by
      rw [hf3]
      exact parseField_fallback s0 rest n hprim hfb
    refine ⟨hpf, fun h1 => ?_⟩
    apply parseRecord_eq
    · rw [e1]
      exact h1
    · rw [e3]
      exact hpf

/-- Witness for C4: a length-5 candidate with fragment 1 equal to
["45 min"] takes the fallback and yields time_until_sent_home = 45. -/
theorem c4_witness :
    parseField (([["A"], ["45 min"], ["B"], ["1", "30"], ["C"]] :
        List (List String)).getD 1 []) = Except.ok 45 ∧
    parseRecord [["A"], ["45 min"], ["B"], ["1", "30"], ["C"]]
      = Except.ok (45, 90) := by
  have h := (c4_fallback_parse [["A"], ["45 min"], ["B"], ["1", "30"], ["C"]]
    "45 min" [] 45 0 90 (Or.inl rfl)).1 rfl rfl rfl
  exact ⟨h.1, h.2 rfl⟩

/-- Claim C5: a validated record whose fragment 1 or fragment 3 has
neither the hours-colon-minutes shape nor the leading-integer bare-minutes
shape makes the whole call fail: the error propagates and no relation at
all (not even the well-formed rows) is returned. -/
theorem c5_hard_failure (textlist : List (List String))
    (p : List (List String)) (hp : p ∈ pruned_slices_list textlist)
    (hbad : (primary_ok ((p.take 5).getD 1 []) = false ∧
        fallback_ok ((p.take 5).getD 1 []) = false) ∨
      (primary_ok ((p.take 5).getD 3 []) = false ∧
        fallback_ok ((p.take 5).getD 3 []) = false)) :
    isOkE (import_state_info textlist) = false := by
  unfold import_state_info
  apply parseAll_not_ok_of_mem _ p hp
  apply parseRecord_not_ok
  rcases hbad with ⟨h1, h2⟩ | ⟨h1, h2⟩
  · exact Or.inl (parseField_not_ok _ h1 h2)
  · exact Or.inr (parseField_not_ok _ h1 h2)

/-- Witness for C5: a document whose single validated record has the
malformed fragment ["junk"] at position 1 makes the whole call fail. -/
theorem c5_witness :
    isOkE (import_state_info [[""], ["junk"], ["xx"], ["j2"], ["zz"], [""]])
      = false := by
  apply c5_hard_failure [[""], ["junk"], ["xx"], ["j2"], ["zz"], [""]]
    [[""], ["junk"], ["xx"], ["j2"], ["zz"]]
  · decide
  · exact Or.inl ⟨rfl, rfl⟩

/-- Claim C6: when hospital-name attachment is requested and the label
alignment fails (wrong counts or structural mismatch between the
anchor-element fragments and the retained-index range), the call does not
raise: it returns exactly the numeric relation of the unlabeled call with
the default positional index (no labels). -/
theorem c6_labels_best_effort (textlist namelist : List (List String))
    (rows : List (Int × Int))
    (hok : import_state_info textlist = Except.ok rows)
    (hfail : hospital_labels namelist (useable_data_idx textlist) rows.length
      = none) :
    import_state_info_names textlist namelist = Except.ok (rows, none) := by
  unfold import_state_info_names
  rw [hok]
  show Except.ok (rows, hospital_labels namelist (useable_data_idx textlist) rows.length)
    = Except.ok (rows, none)
  rw [hfail]

/-- Witness for C6: an anchor stream that is far too short for the
retained-index range degrades to the unlabeled relation. -/
theorem c6_witness :
    import_state_info_names [[""], ["2", "30"], ["j"], ["1", "00"], ["k"], [""]]
      [["only"], ["two"]] = Except.ok ([(150, 60)], none) :=
  c6_labels_best_effort [[""], ["2", "30"], ["j"], ["1", "00"], ["k"], [""]]
    [["only"], ["two"]] [(150, 60)] rfl rfl

/-- Claim C7 as stated is false on the code: Python's int() accepts signed
numerals, so a validated record whose hours part is "-1" produces the
negative output field 60*(-1) + 30 = -30, and the parser succeeds. -/
theorem c7_counterexample :
    import_state_info [[""], ["-1", "30"], ["mid"], ["1", "00"], ["end"], [""]]
      = Except.ok [(-30, 60)] ∧ ¬((0 : Int) ≤ -30) := by
  exact ⟨rfl, by decide⟩

/-- Claim C7 (amended): on every input fragment sequence whose integer
tokens are all non-negative (every fragment element, and every first
space-token of a fragment element, that reads as an integer reads as a
non-negative one), a successful run yields only non-negative fields in
every output row. -/
theorem c7_nonneg (textlist : List (List String)) (rows : List (Int × Int))
    (k : Nat) (hnn : tokensNonNeg textlist)
    (hok : import_state_info textlist = Except.ok rows) :
    0 ≤ (rows.getD k (0, 0)).1 ∧ 0 ≤ (rows.getD k (0, 0)).2 := by
  by_cases hk : k < rows.length
  · have hlen := parseAll_ok_length _ _ hok
    have hrec := parseAll_ok_getD _ _ hok k (by omega)
    have hpmem : (pruned_slices_list textlist).getD k [] ∈ pruned_slices_list textlist :=
      getD_mem _ k [] (by omega)
    have hplen := pruned_length textlist _ hpmem
    obtain ⟨hfield1, hfield3⟩ := parseRecord_ok_inv _ _ hrec
    have hsub : ∀ f ∈ (pruned_slices_list textlist).getD k [], f ∈ textlist := by
      intro f hf
      exact mem_of_mem_slices textlist _
        (pruned_mem_slices textlist _ hpmem) f hf
    have hmem1 : ((pruned_slices_list textlist).getD k []).getD 1 [] ∈ textlist :=
      hsub _ (getD_mem _ 1 [] (by omega))
    have hmem3 : ((pruned_slices_list textlist).getD k []).getD 3 [] ∈ textlist :=
      hsub _ (getD_mem _ 3 [] (by omega))
    rw [getD_take_five _ 1 [] (by omega)] at hfield1
    rw [getD_take_five _ 3 [] (by omega)] at hfield3
    exact ⟨parseField_nonneg _ (hnn _ hmem1) _ hfield1,
      parseField_nonneg _ (hnn _ hmem3) _ hfield3⟩
  · rw [List.getD_eq_default _ _ (by omega)]
    exact ⟨le_refl 0, le_refl 0⟩

/-- Witness for C7 (amended) at a concrete all-non-negative document. -/
theorem c7_witness :
    0 ≤ (([((150 : Int), (60 : Int))] : List (Int × Int)).getD 0 (0, 0)).1 ∧
    0 ≤ (([((150 : Int), (60 : Int))] : List (Int × Int)).getD 0 (0, 0)).2 :=
  c7_nonneg [[""], ["2", "30"], ["j"], ["1", "00"], ["k"], [""]]
    [(150, 60)] 0 (by unfold tokensNonNeg; decide) rfl

/-- Claim C8: the parser is a pure function of its two input fragment
streams: two runs on equal inputs produce equal output relations (and
equal labels).  In this embedding the parser is a total Lean function of
the fragment and anchor streams alone, which also captures that a run
mutates no state outside the returned relation. -/
theorem c8_deterministic (ta na tb nb : List (List String))
    (ht : ta = tb) (hn : na = nb) :
    import_state_info_names ta na = import_state_info_names tb nb := by
  rw [ht, hn]

/-- Witness for C8 at a concrete pair of equal inputs. -/
theorem c8_witness :
    import_state_info_names [[""], ["2", "30"], ["j"], ["1", "00"], ["k"], [""]] [["n"]]
      = import_state_info_names [[""], ["2", "30"], ["j"], ["1", "00"], ["k"], [""]] [["n"]] :=
  c8_deterministic [[""], ["2", "30"], ["j"], ["1", "00"], ["k"], [""]] [["n"]]
    [[""], ["2", "30"], ["j"], ["1", "00"], ["k"], [""]] [["n"]] rfl rfl

/-- Claim C9: a validated record of length 6 parses to exactly the fields
of its length-5 truncation: the sixth (violation-flag) fragment never
influences either output field. -/
theorem c9_flag_ignored (p : List (List String)) (hlen : p.length = 6) :
    parseRecord p = parseRecord (p.take 5) := by
  unfold parseRecord
  rw [List.take_take]
  simp

/-- Witness for C9 at a concrete length-6 record. -/
theorem c9_witness :
    parseRecord [["A"], ["2", "30"], ["B"], ["1", "00"], ["C"], ["flag"]]
      = parseRecord ([["A"], ["2", "30"], ["B"], ["1", "00"], ["C"], ["flag"]].take 5) :=
  c9_flag_ignored [["A"], ["2", "30"], ["B"], ["1", "00"], ["C"], ["flag"]] rfl

/-- Claim C10: the primary parse reads only the first two elements of
fragments 1 and 3: when both of the first two elements read as integers,
any additional elements neither trigger the fallback nor cause a
failure, and the fields are 60*hours + minutes. -/
theorem c10_extra_elements (p : List (List String)) (a b c d : String)
    (r1 r2 : List String) (h1 m1 h2 m2 : Int)
    (hlen : p.length = 5 ∨ p.length = 6)
    (hf1 : p.getD 1 [] = a :: b :: r1) (hf3 : p.getD 3 [] = c :: d :: r2)
    (ha : pyInt? a = some h1) (hb : pyInt? b = some m1)
    (hc : pyInt? c = some h2) (hd : pyInt? d = some m2) :
    parseRecord p = Except.ok (60 * h1 + m1, 60 * h2 + m2) := by
  apply parseRecord_eq
  · rw [getD_take_five p 1 [] (by omega), hf1]
    exact parseField_primary a b r1 h1 m1 ha hb
  · rw [getD_take_five p 3 [] (by omega), hf3]
    exact parseField_primary c d r2 h2 m2 hc hd

/-- Witness for C10 at a record whose fragments 1 and 3 carry a third
element. -/
theorem c10_witness :
    parseRecord [["A"], ["2", "30", "x"], ["B"], ["1", "00", "y"], ["C"]]
      = Except.ok (150, 60) := by
  have := c10_extra_elements [["A"], ["2", "30", "x"], ["B"], ["1", "00", "y"], ["C"]]
    "2" "30" "1" "00" ["x"] ["y"] 2 30 1 0 (Or.inl rfl) rfl rfl rfl rfl rfl rfl
  exact this
